import Mathlib

/-!
Verification development for the WalnutBook icon-generation scripts.

The repository consists of six standalone Python scripts that draw icon
artwork with the PIL drawing library and export it as PNG / ICO / ICNS
files.  This file gives a shallow embedding of the scripts: each script's
drawing code becomes a pure Lean function producing a `Canvas`, and each
script's filesystem / printing effects become explicit state passing over a
`World` record.  External resources that are not part of the repository
(font files, the PIL rasterizer internals, the `iconutil` subprocess) are
modelled as parameters of the embedding (`Env`, `Font`) or as concrete
mathematical models of the library primitive (ellipse membership,
box-average blur, integer alpha blending); doc comments on those
definitions record the modelling choice.  Fallible operations
(`Image.open`, the scripts whose entry points can raise) are embedded in
`Except PyErr`.
-/

/-- An 8-bit-per-channel color sample.  Channels are `Nat` values; the
drawing code only ever stores values in `0..255`. -/
structure RGBA where
  r : Nat
  g : Nat
  b : Nat
  a : Nat
deriving DecidableEq, Repr

/-- Pixel-storage mode of a PIL image: `rgba` carries an alpha channel,
`rgb` and `l` (8-bit grayscale) do not. -/
inductive Mode where
  | rgba
  | rgb
  | l
deriving DecidableEq, Repr

/-- A PIL image: a `width` by `height` pixel grid together with the color at
each integer coordinate.  The pixel function is total; the claims only ever
inspect coordinates inside the grid. -/
structure Canvas where
  width : Nat
  height : Nat
  mode : Mode
  pixel : Int → Int → RGBA

/-- Whether a canvas carries an alpha channel. -/
def Canvas.hasAlpha (c : Canvas) : Bool := c.mode == Mode.rgba

/-- A glyph source (PIL `ImageFont`).  `bbox s` is `draw.textbbox((0,0), s)`
as `(x0, y0, x1, y1)`; `mask s x y` is the anti-aliasing coverage (0..255)
of the rendered text at `(x, y)`, in the same origin-`(0,0)` coordinate
frame as `bbox`.  Font data is external to the repository, so fonts are
parameters of the embedding rather than concrete glyph tables. -/
structure Font where
  bbox : String → Int × Int × Int × Int
  mask : String → Int → Int → Nat

/-- Outcome of invoking the external `iconutil` subprocess on the host:
the binary may be missing, may exit non-zero, or may succeed. -/
inductive IconutilStatus where
  | absent
  | fails
  | succeeds
deriving DecidableEq, Repr

/-- The external environment of a run: which of the two TrueType font files
named by the scripts resolve (and to what), the built-in PIL default font,
and the state of the `iconutil` utility.  All of these are outside the
repository, so the embedded scripts take an `Env` argument. -/
structure Env where
  arialbd : Option (Nat → Font)
  systemArial : Option (Nat → Font)
  defaultFont : Font
  iconutil : IconutilStatus

/-- Persisted file contents.  PNG and ICO files store the encoded canvas
(the PNG/ICO byte encoders are deterministic library code, so a file's
bytes are determined by, and here identified with, the canvas written);
`icns` is the opaque output of the external `iconutil` utility. -/
inductive FileData where
  | png (c : Canvas)
  | ico (c : Canvas)
  | icns

/-- The observable state a script interacts with: the files on disk and the
lines printed to stdout, in order. -/
structure World where
  files : String → Option FileData
  printed : List String

/-- A world with no files and no output. -/
def emptyWorld : World := { files := fun _ => none, printed := [] }

/-- Python exceptions that the embedded code can raise. -/
inductive PyErr where
  | fileNotFoundError (path : String)
deriving DecidableEq, Repr

/-- Writing a file: unconditional overwrite of the previous content. -/
def writeFile (path : String) (d : FileData) (w : World) : World :=
  { w with files := fun q => if q = path then some d else w.files q }

/-- A `print(...)` call: appends one line to the output. -/
def emit (s : String) (w : World) : World :=
  { w with printed := w.printed ++ [s] }

/-- Model of `os.path.join` on the forward-slash paths these scripts use. -/
def osJoin (a b : String) : String := a ++ "/" ++ b

/-- Decoding an image file that exists on disk (`PIL.Image.open`).  PNG and
ICO files decode to their stored canvas; an `.icns` container (written by
the external utility, never reopened by these scripts) decodes to an
unspecified placeholder image. -/
def canvas_of : FileData → Canvas
  | .png c => c
  | .ico c => c
  | .icns => ⟨1, 1, Mode.rgba, fun _ _ => ⟨0, 0, 0, 0⟩⟩

/-- Model of `PIL.Image.open`: raises `FileNotFoundError` when the path is
absent, otherwise yields the decoded image. -/
def imageOpen (path : String) (w : World) : Except PyErr Canvas :=
  match w.files path with
  | some d => .ok (canvas_of d)
  | none => .error (.fileNotFoundError path)

/-- Model of `Image.resize((w, h))`: the result has the requested
dimensions and the source's mode.  The resampling kernel (LANCZOS) is
library code; it is modelled as index remapping, which the claims (all
about dimensions and modes) do not depend on. -/
def imgResize (c : Canvas) (w h : Nat) : Canvas :=
  ⟨w, h, c.mode, fun x y => c.pixel (x * (c.width : Int) / (w : Int)) (y * (c.height : Int) / (h : Int))⟩

/-- Coordinate of the center of pixel `x`, in tenths of a pixel.  The
rasterization of PIL's float-coordinate primitives is modelled by coverage
tests of pixel centers in a fixed-point grid of tenths (the scripts pass
coordinates that are integers or exact multiples of one tenth). -/
def pc (x : Int) : Int := 10 * x + 5

/-- Membership of a point in the filled ellipse inscribed in the bounding
box `[x0, y0, x1, y1]`; all arguments in tenths of a pixel.  This is the
mathematical ellipse `((X-cx)/rx)^2 + ((Y-cy)/ry)^2 <= 1` cleared of
denominators; it models PIL's `draw.ellipse` fill. -/
def inEllipseT (x0 y0 x1 y1 px py : Int) : Bool :=
  decide ((2 * px - (x0 + x1)) ^ 2 * (y1 - y0) ^ 2 + (2 * py - (y0 + y1)) ^ 2 * (x1 - x0) ^ 2
    ≤ (x1 - x0) ^ 2 * (y1 - y0) ^ 2)

/-- Coverage blending of a top color onto a base color through an 8-bit
mask value `m` (clamped to 255), in integer arithmetic: this models both
`Image.paste(im, box, mask)` and the compositing of an anti-aliased glyph
or shape by `ImageDraw`.  `m = 0` leaves the base pixel exactly unchanged,
`m = 255` replaces it. -/
def pasteBlend (m : Nat) (top base : RGBA) : RGBA :=
  let k := min m 255
  ⟨(top.r * k + base.r * (255 - k)) / 255,
   (top.g * k + base.g * (255 - k)) / 255,
   (top.b * k + base.b * (255 - k)) / 255,
   (top.a * k + base.a * (255 - k)) / 255⟩

/-- Sum of a channel over the `(2r+1) x (2r+1)` window centered at `(x, y)`. -/
def boxSum (r : Nat) (f : Int → Int → Nat) (x y : Int) : Nat :=
  (List.range (2 * r + 1)).foldl
    (fun acc i =>
      (List.range (2 * r + 1)).foldl
        (fun acc2 j => acc2 + f (x - (r : Int) + (i : Int)) (y - (r : Int) + (j : Int))) acc)
    0

/-- Model of `ImageFilter.GaussianBlur(radius)`: a normalized box average
over the `(2r+1) x (2r+1)` window, channel-wise.  The exact Gaussian kernel
is library-internal; the claims do not depend on the kernel shape, only on
the blur being a pure function of the layer beneath the later draws. -/
def boxBlur (r : Nat) (f : Int → Int → RGBA) : Int → Int → RGBA := fun x y =>
  let d := (2 * r + 1) * (2 * r + 1)
  ⟨boxSum r (fun u v => (f u v).r) x y / d,
   boxSum r (fun u v => (f u v).g) x y / d,
   boxSum r (fun u v => (f u v).b) x y / d,
   boxSum r (fun u v => (f u v).a) x y / d⟩

/-- Integer model of straight-alpha Porter-Duff over, pixel-wise
(`Image.alpha_composite(bottom, top)`). -/
def alphaComposite (bot top : Int → Int → RGBA) : Int → Int → RGBA := fun x y =>
  let t := top x y
  let b := bot x y
  let ao := t.a + b.a * (255 - t.a) / 255
  if ao = 0 then ⟨0, 0, 0, 0⟩
  else ⟨(t.r * t.a + b.r * (b.a * (255 - t.a) / 255)) / ao,
        (t.g * t.a + b.g * (b.a * (255 - t.a) / 255)) / ao,
        (t.b * t.a + b.b * (b.a * (255 - t.a) / 255)) / ao,
        ao⟩

/-- A concrete degenerate font (empty bbox, zero coverage) used to build
concrete environments in witnesses. -/
def trivialFont : Font := ⟨fun _ => (0, 0, 0, 0), fun _ _ _ => 0⟩

/-- A concrete environment: neither TrueType font resolves, `iconutil`
succeeds. -/
def trivialEnv : Env := ⟨none, none, trivialFont, IconutilStatus.succeeds⟩


namespace CreateHighResIcons

/-- Output directory constant of `create_high_res_icons.py`. -/
def icons_dir : String := "src-tauri/icons"

/-- The configured size list of `create_high_res_icons.py`. -/
def sizes : List Nat := [16, 32, 44, 71, 89, 107, 128, 142, 150, 256, 284, 310, 512]

/-- Diameter of the white logo disc: `int(size * 0.75)` (exact, since 0.75
is a dyadic rational). -/
def logo_size (size : Nat) : Nat := 3 * size / 4

/-- Left/top coordinate of the logo disc: `(size - logo_size) // 2`. -/
def logo_x (size : Nat) : Nat := (size - logo_size size) / 2

/-- Font resolution of `create_high_res_icon`: `ImageFont.truetype("arialbd.ttf",
int(logo_size * 0.55))`, falling back to `ImageFont.load_default()` when the
face is unavailable (the bare `except` around the truetype call).  The
factor 0.55 is modelled by the rational `55/100` with truncation. -/
def the_font (env : Env) (size : Nat) : Font :=
  match env.arialbd with
  | some f => f (55 * logo_size size / 100)
  | none => env.defaultFont

/-- Measured text dimensions `(text_width, text_height)` of the "WB" label:
`bbox[2] - bbox[0]` and `bbox[3] - bbox[1]` of `draw.textbbox((0,0), "WB")`. -/
def text_dims (env : Env) (size : Nat) : Int × Int :=
  let bb := (the_font env size).bbox "WB"
  (bb.2.2.1 - bb.1, bb.2.2.2 - bb.2.1)

/-- Paste position of the text layer: `((size - text_width) // 2,
(size - text_height) // 2)`, with Python floor division (`Int.fdiv`). -/
def text_pos (env : Env) (size : Nat) : Int × Int :=
  (((size : Int) - (text_dims env size).1).fdiv 2,
   ((size : Int) - (text_dims env size).2).fdiv 2)

/-- Membership of pixel `(x, y)` in the white logo disc drawn by
`draw.ellipse([logo_x, logo_y, logo_x + logo_size, logo_y + logo_size])`. -/
def in_logo_circle (size : Nat) (x y : Int) : Bool :=
  inEllipseT (10 * (logo_x size : Int)) (10 * (logo_x size : Int))
    (10 * ((logo_x size : Int) + (logo_size size : Int)))
    (10 * ((logo_x size : Int) + (logo_size size : Int))) (pc x) (pc y)

/-- The shadow layer before blurring: a black ellipse with alpha 80 at the
logo box offset by `shadow_offset = size // 32`, on a transparent layer. -/
def shadow_layer (size : Nat) : Int → Int → RGBA := fun x y =>
  let off : Int := (size / 32 : Nat)
  if inEllipseT (10 * ((logo_x size : Int) + off)) (10 * ((logo_x size : Int) + off))
      (10 * ((logo_x size : Int) + (logo_size size : Int) + off))
      (10 * ((logo_x size : Int) + (logo_size size : Int) + off)) (pc x) (pc y)
  then ⟨0, 0, 0, 80⟩ else ⟨0, 0, 0, 0⟩

/-- The canvas after compositing the blurred shadow onto the transparent
background and drawing the white logo disc on top. -/
def base_pixel (size : Nat) : Int → Int → RGBA := fun x y =>
  if in_logo_circle size x y then ⟨255, 255, 255, 255⟩
  else alphaComposite (fun _ _ => ⟨0, 0, 0, 0⟩) (boxBlur (size / 16) (shadow_layer size)) x y

/-- Color of row `gy` of the 'gradient' image: the linear interpolation
`int(102*(1-ratio) + 118*ratio)` (and the analogous green and blue ramps)
with `ratio = gy / text_height`, modelled in exact rational arithmetic;
alpha is 255 on every drawn row. -/
def grad_color (th gy : Int) : RGBA :=
  ⟨((102 * (th - gy) + 118 * gy) / th).toNat,
   ((126 * (th - gy) + 75 * gy) / th).toNat,
   ((234 * (th - gy) + 162 * gy) / th).toNat, 255⟩

/-- The drawing portion of `create_high_res_icon(size, output_path)`: the
finished in-memory image before `img.save`.  Layers, in order: transparent
`RGBA` canvas, blurred shadow ellipse composited on, white logo disc, and
the "WB" gradient text pasted through its glyph mask at `text_pos`. -/
def create_high_res_icon_canvas (env : Env) (size : Nat) : Canvas :=
  let tw := (text_dims env size).1
  let th := (text_dims env size).2
  let tx := (text_pos env size).1
  let ty := (text_pos env size).2
  { width := size, height := size, mode := Mode.rgba,
    pixel := fun x y =>
      if tx ≤ x ∧ x < tx + tw ∧ ty ≤ y ∧ y < ty + th then
        pasteBlend ((the_font env size).mask "WB" (x - tx) (y - ty))
          (grad_color th (y - ty)) (base_pixel size x y)
      else base_pixel size x y }

/-- File name `f"{size}x{size}.png"`. -/
def size_file_name (n : Nat) : String := toString n ++ "x" ++ toString n ++ ".png"

/-- The whole of `create_high_res_icon(size, output_path)`: draw the canvas,
save it as PNG at `output_path`, and print the `Created ...` line. -/
def create_high_res_icon (env : Env) (size : Nat) (output_path : String) (w : World) : World :=
  emit ("Created " ++ output_path ++ " (" ++ toString size ++ "x" ++ toString size ++ ")")
    (writeFile output_path (FileData.png (create_high_res_icon_canvas env size)) w)

/-- `main()` of `create_high_res_icons.py`: render every size in `sizes` to
`src-tauri/icons/{size}x{size}.png`, then `icon.png` and `StoreLogo.png` at
512, then print the closing line.  (`os.makedirs(..., exist_ok=True)` has
no observable effect in this file model.) -/
def main (env : Env) (w : World) : World :=
  emit "\nAll splash-style high-resolution icons created!"
    (create_high_res_icon env 512 (osJoin icons_dir "StoreLogo.png")
      (create_high_res_icon env 512 (osJoin icons_dir "icon.png")
        (List.foldl (fun w n => create_high_res_icon env n (osJoin icons_dir (size_file_name n)) w)
          w sizes)))

end CreateHighResIcons

namespace CreateIconsSimple

/-- Iconset output directory constant of `create_icons_simple.py`. -/
def iconset_dir : String := "src-tauri/icons/icon.iconset"

/-- The fixed `(pixel size, filename)` list of `create_iconset()` in
`create_icons_simple.py`: the ten macOS iconset entries. -/
def iconset_sizes : List (Nat × String) :=
  [(16, "icon_16x16.png"),
   (32, "icon_16x16@2x.png"),
   (32, "icon_32x32.png"),
   (64, "icon_32x32@2x.png"),
   (128, "icon_128x128.png"),
   (256, "icon_128x128@2x.png"),
   (256, "icon_256x256.png"),
   (512, "icon_256x256@2x.png"),
   (512, "icon_512x512.png"),
   (1024, "icon_512x512@2x.png")]

/-- Font resolution of `create_simple_icon`:
`ImageFont.truetype("/System/Library/Fonts/Arial.ttf", max(size // 6, 8))`,
falling back to `ImageFont.load_default()` on the bare `except`. -/
def the_font (env : Env) (size : Nat) : Font :=
  match env.systemArial with
  | some f => f (max (size / 6) 8)
  | none => env.defaultFont

/-- Measured `(text_width, text_height)` of the "W" label from
`draw.textbbox((0, 0), "W")`. -/
def text_dims (env : Env) (size : Nat) : Int × Int :=
  let bb := (the_font env size).bbox "W"
  (bb.2.2.1 - bb.1, bb.2.2.2 - bb.2.1)

/-- Draw origin of the "W" label: `((size - text_width) // 2,
(size - text_height) // 2)` with Python floor division. -/
def text_pos (env : Env) (size : Nat) : Int × Int :=
  (((size : Int) - (text_dims env size).1).fdiv 2,
   ((size : Int) - (text_dims env size).2).fdiv 2)

/-- Membership in the background disc
`draw.ellipse([size*0.1, size*0.1, size*0.9, size*0.9])` (coordinates in
tenths: the float products `size*0.1` etc. are the exact rationals
`size/10`, `9*size/10`). -/
def in_background (size : Nat) (x y : Int) : Bool :=
  inEllipseT (size : Int) (size : Int) (9 * (size : Int)) (9 * (size : Int)) (pc x) (pc y)

/-- Membership in the central walnut disc
`draw.ellipse([size*0.3, size*0.3, size*0.7, size*0.7])`. -/
def in_walnut (size : Nat) (x y : Int) : Bool :=
  inEllipseT (3 * (size : Int)) (3 * (size : Int)) (7 * (size : Int)) (7 * (size : Int)) (pc x) (pc y)

/-- The canvas after the two filled discs (Saddle Brown background, Peru
walnut) on the transparent background, before the text. -/
def base_pixel (size : Nat) : Int → Int → RGBA := fun x y =>
  if in_walnut size x y then ⟨160, 82, 45, 255⟩
  else if in_background size x y then ⟨139, 69, 19, 255⟩
  else ⟨0, 0, 0, 0⟩

/-- The drawing portion of `create_simple_icon(size, output_path)`: the two
discs and the white "W" drawn at `text_pos` via the glyph coverage of the
resolved font. -/
def create_simple_icon_canvas (env : Env) (size : Nat) : Canvas :=
  let tx := (text_pos env size).1
  let ty := (text_pos env size).2
  { width := size, height := size, mode := Mode.rgba,
    pixel := fun x y =>
      pasteBlend ((the_font env size).mask "W" (x - tx) (y - ty))
        ⟨255, 255, 255, 255⟩ (base_pixel size x y) }

/-- The whole of `create_simple_icon(size, output_path)`: draw, save as
PNG, print the `Created ...` line. -/
def create_simple_icon (env : Env) (size : Nat) (output_path : String) (w : World) : World :=
  emit ("Created " ++ output_path ++ " (" ++ toString size ++ "x" ++ toString size ++ ")")
    (writeFile output_path (FileData.png (create_simple_icon_canvas env size)) w)

/-- `create_iconset()`: render every `(size, filename)` entry into the
iconset directory, then print the closing line. -/
def create_iconset (env : Env) (w : World) : World :=
  emit "All icons created in iconset directory"
    (List.foldl (fun w p => create_simple_icon env p.1 (osJoin iconset_dir p.2) w) w iconset_sizes)

/-- `create_icns()`: run `iconutil -c icns ... -o src-tauri/icons/icon.icns`
in a `try` block.  Success writes the container and prints the created
line; `CalledProcessError` (non-zero exit) and `FileNotFoundError` (utility
absent) are both caught and reduced to a printed message (the model elides
the exception text interpolated into the first message). -/
def create_icns (env : Env) (w : World) : World :=
  match env.iconutil with
  | IconutilStatus.succeeds =>
      emit "Created src-tauri/icons/icon.icns" (writeFile "src-tauri/icons/icon.icns" FileData.icns w)
  | IconutilStatus.fails => emit "Error creating .icns file: CalledProcessError" w
  | IconutilStatus.absent => emit "iconutil not found. Make sure you're on macOS." w

/-- Membership in the 256-scale background disc of `create_ico()`:
`draw.ellipse([256*0.1, 256*0.1, 256*0.9, 256*0.9])`. -/
def ico_in_background (x y : Int) : Bool :=
  inEllipseT 256 256 2304 2304 (pc x) (pc y)

/-- Membership in the 256-scale walnut disc of `create_ico()`. -/
def ico_in_walnut (x y : Int) : Bool :=
  inEllipseT 768 768 1792 1792 (pc x) (pc y)

/-- Font resolution of `create_ico()`: Arial at fixed size 42, with the
default-font fallback. -/
def ico_font (env : Env) : Font :=
  match env.systemArial with
  | some f => f 42
  | none => env.defaultFont

/-- Measured `(text_width, text_height)` of the "W" label in `create_ico()`. -/
def ico_text_dims (env : Env) : Int × Int :=
  let bb := (ico_font env).bbox "W"
  (bb.2.2.1 - bb.1, bb.2.2.2 - bb.2.1)

/-- Draw origin of the "W" label in `create_ico()`:
`((256 - text_width) // 2, (256 - text_height) // 2)`. -/
def ico_text_pos (env : Env) : Int × Int :=
  ((256 - (ico_text_dims env).1).fdiv 2, (256 - (ico_text_dims env).2).fdiv 2)

/-- The image built by `create_ico()`: a 256 by 256 canvas in `RGB` mode
(no alpha channel), filled Saddle Brown by `Image.new`, with the two discs
and the white "W" on top.  The alpha component of every stored sample is
255, standing for the absent channel of an opaque RGB image. -/
def create_ico_canvas (env : Env) : Canvas :=
  let tx := (ico_text_pos env).1
  let ty := (ico_text_pos env).2
  { width := 256, height := 256, mode := Mode.rgb,
    pixel := fun x y =>
      let base : RGBA :=
        if ico_in_walnut x y then ⟨160, 82, 45, 255⟩
        else if ico_in_background x y then ⟨139, 69, 19, 255⟩
        else ⟨139, 69, 19, 255⟩
      pasteBlend ((ico_font env).mask "W" (x - tx) (y - ty)) ⟨255, 255, 255, 255⟩ base }

/-- The whole of `create_ico()`: draw and save `src-tauri/icons/icon.ico`
with the ICO encoder, then print the created line. -/
def create_ico (env : Env) (w : World) : World :=
  emit "Created src-tauri/icons/icon.ico"
    (writeFile "src-tauri/icons/icon.ico" (FileData.ico (create_ico_canvas env)) w)

/-- The `__main__` block of `create_icons_simple.py`: banner, iconset,
icns packaging, ico, closing line. -/
def main (env : Env) (w : World) : World :=
  emit "Icon creation complete!"
    (create_ico env (create_icns env (create_iconset env
      (emit "Creating simple high-resolution icons..." w))))

end CreateIconsSimple

namespace CreateIco

/-- Source asset path of `create_iconset_from_existing()` in `create_ico.py`. -/
def source_icon : String := "src-tauri/icons/icon_512x512@2x.png"

/-- Iconset output directory constant of `create_ico.py`. -/
def iconset_dir : String := "src-tauri/icons/icon.iconset"

/-- The fixed `(pixel size, filename)` list of `create_ico.py` (textually
identical to the list in `create_icons_simple.py`). -/
def sizes : List (Nat × String) :=
  [(16, "icon_16x16.png"),
   (32, "icon_16x16@2x.png"),
   (32, "icon_32x32.png"),
   (64, "icon_32x32@2x.png"),
   (128, "icon_128x128.png"),
   (256, "icon_128x128@2x.png"),
   (256, "icon_256x256.png"),
   (512, "icon_256x256@2x.png"),
   (512, "icon_512x512.png"),
   (1024, "icon_512x512@2x.png")]

/-- `create_iconset_from_existing()`: open the existing
`icon_512x512@2x.png` (this `Image.open` call is guarded by no existence
check and no `try`, so a missing file raises `FileNotFoundError` out of the
function), then resize it to every listed size, save each, and print the
closing line. -/
def create_iconset_from_existing (w : World) : Except PyErr World := do
  let original_img ← imageOpen source_icon w
  let w := List.foldl
    (fun w p =>
      emit ("Created " ++ osJoin iconset_dir p.2 ++ " (" ++ toString p.1 ++ "x" ++ toString p.1 ++ ")")
        (writeFile (osJoin iconset_dir p.2) (FileData.png (imgResize original_img p.1 p.1)) w))
    w sizes
  return emit "All icons created in iconset directory" w

/-- `create_icns()` of `create_ico.py`: textually the same handler as in
`create_icons_simple.py` — both subprocess failures are caught and printed. -/
def create_icns (env : Env) (w : World) : World :=
  match env.iconutil with
  | IconutilStatus.succeeds =>
      emit "Created src-tauri/icons/icon.icns" (writeFile "src-tauri/icons/icon.icns" FileData.icns w)
  | IconutilStatus.fails => emit "Error creating .icns file: CalledProcessError" w
  | IconutilStatus.absent => emit "iconutil not found. Make sure you're on macOS." w

/-- The `__main__` block of `create_ico.py`.  Exceptions raised by
`create_iconset_from_existing` propagate out of the entry point: nothing in
this block catches them. -/
def main (env : Env) (w : World) : Except PyErr World := do
  let w := emit "Creating .icns file from existing icon..." w
  let w ← create_iconset_from_existing w
  let w := create_icns env w
  return emit "Icon creation complete!" w

end CreateIco

namespace CreateHighResSquirrelIcons

/-- Source asset path of `create_high_res_icons()` in
`create_high_res_squirrel_icons.py`. -/
def source_path : String := "src-tauri/icons/512x512.png"

/-- Output directory constant. -/
def icons_dir : String := "src-tauri/icons"

/-- The configured size list of `create_high_res_squirrel_icons.py`. -/
def sizes : List Nat := [16, 32, 44, 71, 89, 107, 128, 142, 150, 256, 284, 310, 512]

/-- File name `f"{size}x{size}.png"`. -/
def size_file_name (n : Nat) : String := toString n ++ "x" ++ toString n ++ ".png"

/-- `create_high_res_icons()` of `create_high_res_squirrel_icons.py`, which
is also its whole `__main__` body: if the source PNG is absent
(`os.path.exists`, modelled as a lookup in `World.files`), print the
missing-source message and return; otherwise open it, print its size,
resize and save every listed size, then `icon.png` and `StoreLogo.png` at
512, then print the closing line. -/
def create_high_res_icons (w : World) : Except PyErr World :=
  if (w.files source_path).isSome then do
    let source_img ← imageOpen source_path w
    let w := emit ("Source image size: (" ++ toString source_img.width ++ ", "
      ++ toString source_img.height ++ ")") w
    let w := List.foldl
      (fun w n =>
        emit ("Created " ++ osJoin icons_dir (size_file_name n) ++ " (" ++ toString n ++ "x" ++ toString n ++ ")")
          (writeFile (osJoin icons_dir (size_file_name n)) (FileData.png (imgResize source_img n n)) w))
      w sizes
    let w := emit ("Created " ++ osJoin icons_dir "icon.png" ++ " (512x512)")
      (writeFile (osJoin icons_dir "icon.png") (FileData.png (imgResize source_img 512 512)) w)
    let w := emit ("Created " ++ osJoin icons_dir "StoreLogo.png" ++ " (512x512)")
      (writeFile (osJoin icons_dir "StoreLogo.png") (FileData.png (imgResize source_img 512 512)) w)
    return emit "\nAll high-resolution squirrel icons created successfully!" w
  else
    Except.ok (emit ("Source image not found: " ++ source_path) w)

end CreateHighResSquirrelIcons

/-- A pixel shader: color at each integer pixel coordinate. -/
abbrev PixelFn := Int → Int → RGBA

/-- Model of `draw.ellipse(bbox, fill, outline, width)` layered over a
previous shader: the interior takes the fill color, and a ring of the given
width inside the boundary takes the outline color (PIL strokes inward).
Bounding-box coordinates are in pixels. -/
def drawEllipse (x0 y0 x1 y1 : Int) (fill outline : Option RGBA) (wd : Int)
    (prev : PixelFn) : PixelFn := fun x y =>
  let outer := inEllipseT (10 * x0) (10 * y0) (10 * x1) (10 * y1) (pc x) (pc y)
  let inner := inEllipseT (10 * (x0 + wd)) (10 * (y0 + wd)) (10 * (x1 - wd)) (10 * (y1 - wd))
    (pc x) (pc y)
  if outer then
    match fill, outline with
    | some fc, some oc => if inner then fc else oc
    | some fc, none => fc
    | none, some oc => if inner then prev x y else oc
    | none, none => prev x y
  else prev x y

/-- Model of `draw.arc(bbox, 0, 180, fill, width)`: the scripts only draw
arcs from angle 0 to 180, which in PIL's clockwise-from-3-o'clock, y-down
convention is the lower half of the ellipse boundary; modelled as the lower
half of the width-wide boundary ring. -/
def drawArcLowerHalf (x0 y0 x1 y1 : Int) (color : RGBA) (wd : Int)
    (prev : PixelFn) : PixelFn := fun x y =>
  let outer := inEllipseT (10 * x0) (10 * y0) (10 * x1) (10 * y1) (pc x) (pc y)
  let inner := inEllipseT (10 * (x0 + wd)) (10 * (y0 + wd)) (10 * (x1 - wd)) (10 * (y1 - wd))
    (pc x) (pc y)
  if outer && !inner && decide (2 * pc y ≥ 10 * y0 + 10 * y1) then color else prev x y

/-- Whether the horizontal ray from `(px, py)` to the right crosses the
edge from `(ax, ay)` to `(bx, qy)`; half-open in y so shared vertices are
counted once.  All coordinates in tenths. -/
def rayCrossing (ax ay bx qy px py : Int) : Bool :=
  if decide (ay ≤ py) && decide (py < qy) then
    decide ((px - ax) * (qy - ay) < (py - ay) * (bx - ax))
  else if decide (qy ≤ py) && decide (py < ay) then
    decide ((px - ax) * (qy - ay) > (py - ay) * (bx - ax))
  else false

/-- Even-odd interior test for a polygon given by its vertex list, in
tenths: a point is inside when the rightward ray crosses an odd number of
edges.  Models PIL's polygon fill. -/
def insidePolygon (pts : List (Int × Int)) (px py : Int) : Bool :=
  (pts.zip (pts.drop 1 ++ pts.take 1)).foldl
    (fun acc e => if rayCrossing e.1.1 e.1.2 e.2.1 e.2.2 px py then !acc else acc) false

/-- Whether `(px, py)` lies within distance `rad` of the segment from
`(ax, ay)` to `(bx, qy)`, by the clamped-projection squared-distance test
in integer arithmetic.  All coordinates and `rad` in tenths. -/
def segNear (ax ay bx qy px py rad : Int) : Bool :=
  let dx := bx - ax
  let dy := qy - ay
  let ux := px - ax
  let uy := py - ay
  let num := ux * dx + uy * dy
  let len2 := dx * dx + dy * dy
  if decide (num ≤ 0) then decide (ux * ux + uy * uy ≤ rad * rad)
  else if decide (num ≥ len2) then
    decide ((px - bx) * (px - bx) + (py - qy) * (py - qy) ≤ rad * rad)
  else decide ((ux * ux + uy * uy) * len2 - num * num ≤ rad * rad * len2)

/-- Model of `draw.polygon(points, fill, outline, width)`: outline strokes
of the given width along the edges over the even-odd filled interior.
Vertex coordinates are in pixels. -/
def drawPolygon (pts : List (Int × Int)) (fill outline : RGBA) (wd : Int)
    (prev : PixelFn) : PixelFn := fun x y =>
  let pts10 := pts.map (fun p => (10 * p.1, 10 * p.2))
  if (pts10.zip (pts10.drop 1 ++ pts10.take 1)).any
      (fun e => segNear e.1.1 e.1.2 e.2.1 e.2.2 (pc x) (pc y) (5 * wd)) then outline
  else if insidePolygon pts10 (pc x) (pc y) then fill
  else prev x y

/-- Membership in the rounded rectangle of bounding box `[x0, y0, x1, y1]`
and corner radius `rad` (all in tenths): the two central strips plus the
four corner discs.  Models `draw.rounded_rectangle`. -/
def inRoundedRectT (x0 y0 x1 y1 rad X Y : Int) : Bool :=
  (decide (x0 ≤ X) && decide (X ≤ x1) && decide (y0 + rad ≤ Y) && decide (Y ≤ y1 - rad)) ||
  (decide (y0 ≤ Y) && decide (Y ≤ y1) && decide (x0 + rad ≤ X) && decide (X ≤ x1 - rad)) ||
  (decide ((X - (x0 + rad)) ^ 2 + (Y - (y0 + rad)) ^ 2 ≤ rad ^ 2)) ||
  (decide ((X - (x1 - rad)) ^ 2 + (Y - (y0 + rad)) ^ 2 ≤ rad ^ 2)) ||
  (decide ((X - (x0 + rad)) ^ 2 + (Y - (y1 - rad)) ^ 2 ≤ rad ^ 2)) ||
  (decide ((X - (x1 - rad)) ^ 2 + (Y - (y1 - rad)) ^ 2 ≤ rad ^ 2))

/-- Model of `draw.rounded_rectangle(bbox, radius, fill, outline, width)`
layered over a previous shader; coordinates in pixels. -/
def drawRoundedRect (x0 y0 x1 y1 rad : Int) (fill outline : Option RGBA) (wd : Int)
    (prev : PixelFn) : PixelFn := fun x y =>
  let outer := inRoundedRectT (10 * x0) (10 * y0) (10 * x1) (10 * y1) (10 * rad) (pc x) (pc y)
  let inner := inRoundedRectT (10 * (x0 + wd)) (10 * (y0 + wd)) (10 * (x1 - wd)) (10 * (y1 - wd))
    (10 * rad) (pc x) (pc y)
  if outer then
    match fill, outline with
    | some fc, some oc => if inner then fc else oc
    | some fc, none => fc
    | none, some oc => if inner then prev x y else oc
    | none, none => prev x y
  else prev x y

namespace CreateSquirrelIcon

/-- Saddle brown of the squirrel body. -/
def squirrel_brown : RGBA := ⟨139, 69, 19, 255⟩

/-- Cornsilk of the belly and inner ears. -/
def cream : RGBA := ⟨255, 248, 220, 255⟩

/-- Dark brown of the outlines and facial features. -/
def dark_brown : RGBA := ⟨101, 67, 33, 255⟩

/-- Saddle brown of the acorn. -/
def acorn_brown : RGBA := ⟨160, 82, 45, 255⟩

/-- `scale_dim(dim) = int(dim * (size / 32.0))`.  Since 32 is a power of
two and the products stay far below 2^53, the float computation is exact
and equals `size * dim / 32` in truncated natural division. -/
def scale_dim (size dim : Nat) : Int := ((size * dim / 32 : Nat) : Int)

/-- `create_squirrel_icon(size)` of `create_squirrel_icon.py`: the full
layered drawing — body, belly, head, two ears with inner highlights, two
closed-eye arcs, mouth arc, tail polygon, acorn and acorn cap — on a
transparent `RGBA` canvas.  The function is pure: it returns the image and
performs no output. -/
def create_squirrel_icon (size : Nat) : Canvas :=
  let s := scale_dim size
  let wd : Int := max 1 (s 1)
  let body_width := s 20
  let body_height := s 16
  let body_x := s 6
  let body_y := s 8
  let p1 := drawEllipse body_x body_y (body_x + body_width) (body_y + body_height)
    (some squirrel_brown) (some dark_brown) wd (fun _ _ => ⟨0, 0, 0, 0⟩)
  let belly_width := s 12
  let belly_height := s 8
  let belly_x := body_x + s 4
  let belly_y := body_y + s 4
  let p2 := drawEllipse belly_x belly_y (belly_x + belly_width) (belly_y + belly_height)
    (some cream) (some dark_brown) wd p1
  let head_size := s 12
  let head_x := body_x + s 8
  let head_y := body_y - s 2
  let p3 := drawEllipse head_x head_y (head_x + head_size) (head_y + head_size)
    (some squirrel_brown) (some dark_brown) wd p2
  let ear_size := s 4
  let left_ear_x := head_x + s 1
  let left_ear_y := head_y - s 2
  let right_ear_x := head_x + s 7
  let right_ear_y := head_y - s 2
  let p4 := drawEllipse left_ear_x left_ear_y (left_ear_x + ear_size) (left_ear_y + ear_size)
    (some squirrel_brown) (some dark_brown) wd p3
  let p5 := drawEllipse (left_ear_x + s 1) (left_ear_y + s 1)
    (left_ear_x + ear_size - s 1) (left_ear_y + ear_size - s 1) (some cream) none wd p4
  let p6 := drawEllipse right_ear_x right_ear_y (right_ear_x + ear_size) (right_ear_y + ear_size)
    (some squirrel_brown) (some dark_brown) wd p5
  let p7 := drawEllipse (right_ear_x + s 1) (right_ear_y + s 1)
    (right_ear_x + ear_size - s 1) (right_ear_y + ear_size - s 1) (some cream) none wd p6
  let eye_size := s 2
  let left_eye_x := head_x + s 3
  let left_eye_y := head_y + s 4
  let right_eye_x := head_x + s 7
  let right_eye_y := head_y + s 4
  let p8 := drawArcLowerHalf left_eye_x left_eye_y (left_eye_x + eye_size) (left_eye_y + eye_size)
    dark_brown wd p7
  let p9 := drawArcLowerHalf right_eye_x right_eye_y (right_eye_x + eye_size) (right_eye_y + eye_size)
    dark_brown wd p8
  let mouth_x := head_x + s 5
  let mouth_y := head_y + s 8
  let p10 := drawArcLowerHalf mouth_x mouth_y (mouth_x + s 2) (mouth_y + s 2) dark_brown wd p9
  let tail_points : List (Int × Int) :=
    [(body_x + s 2, body_y + s 4),
     (body_x - s 4, body_y - s 2),
     (body_x - s 6, body_y - s 6),
     (body_x - s 4, body_y - s 8),
     (body_x, body_y - s 6),
     (body_x + s 2, body_y - s 4)]
  let p11 := drawPolygon tail_points squirrel_brown dark_brown wd p10
  let acorn_x := body_x + s 12
  let acorn_y := body_y + s 6
  let acorn_width := s 6
  let acorn_height := s 8
  let p12 := drawEllipse acorn_x acorn_y (acorn_x + acorn_width) (acorn_y + acorn_height)
    (some acorn_brown) (some dark_brown) wd p11
  let cap_x := acorn_x + s 1
  let cap_y := acorn_y - s 2
  let cap_width := s 4
  let cap_height := s 3
  let p13 := drawEllipse cap_x cap_y (cap_x + cap_width) (cap_y + cap_height)
    (some dark_brown) (some dark_brown) wd p12
  ⟨size, size, Mode.rgba, p13⟩

/-- Output directory constant of `create_squirrel_icon.py`. -/
def icons_dir : String := "src-tauri/icons"

/-- The configured size list of `create_squirrel_icon.py`. -/
def sizes : List Nat := [16, 32, 44, 71, 89, 107, 128, 142, 150, 256, 284, 310, 512]

/-- File name `f"{size}x{size}.png"`. -/
def size_file_name (n : Nat) : String := toString n ++ "x" ++ toString n ++ ".png"

/-- `main()` of `create_squirrel_icon.py`: render and save every size in
`sizes` (the `optimize=True` save flag does not change the decoded image),
then `icon.png` and `StoreLogo.png` at 512, then print the closing line. -/
def main (w : World) : World :=
  emit "\nAll squirrel icons created successfully!"
    (emit ("Created " ++ osJoin icons_dir "StoreLogo.png" ++ " (512x512)")
      (writeFile (osJoin icons_dir "StoreLogo.png") (FileData.png (create_squirrel_icon 512))
        (emit ("Created " ++ osJoin icons_dir "icon.png" ++ " (512x512)")
          (writeFile (osJoin icons_dir "icon.png") (FileData.png (create_squirrel_icon 512))
            (List.foldl
              (fun w n =>
                emit ("Created " ++ osJoin icons_dir (size_file_name n) ++ " (" ++ toString n ++ "x" ++ toString n ++ ")")
                  (writeFile (osJoin icons_dir (size_file_name n)) (FileData.png (create_squirrel_icon n)) w))
              w sizes)))))

end CreateSquirrelIcon

namespace CreateIcons

/-- Font resolution of `create_simple_icon()` in `create_icons.py`: Arial
at fixed size 20 with the default-font fallback. -/
def the_font (env : Env) : Font :=
  match env.systemArial with
  | some f => f 20
  | none => env.defaultFont

/-- The brown vertical background gradient of `create_simple_icon()` in
`create_icons.py`: row `y` of the 512-row loop gets
`(139 + (y/512)*20, 69 + (y/512)*30, 19 + (y/512)*20)` truncated, modelled
in exact rational arithmetic.  Each `draw.rectangle([0, y, 512, y+1])`
covers rows `y` and `y+1`, and the later iteration wins on the overlap, so
row `y` keeps the colors computed from `y`. -/
def gradient_pixel : PixelFn := fun x y =>
  if decide (0 ≤ x) && decide (x ≤ 512) && decide (0 ≤ y) && decide (y < 512) then
    ⟨139 + 20 * y.toNat / 512, 69 + 30 * y.toNat / 512, 19 + 20 * y.toNat / 512, 255⟩
  else ⟨0, 0, 0, 0⟩

/-- The drawing portion of `create_simple_icon()` in `create_icons.py` (the
512 by 512 walnut-and-book composition returned when PIL imports):
gradient background, walnut shell ellipses, book rounded rectangles, five
page lines, and the "$" glyph drawn with `anchor="mm"` at `(256, 305)`
(modelled as the glyph's bounding-box midpoint placed on that point). -/
def create_simple_icon (env : Env) : Canvas :=
  let p1 := drawEllipse 136 120 376 280 (some ⟨139, 69, 19, 255⟩) (some ⟨101, 67, 33, 255⟩) 3
    gradient_pixel
  let p2 := drawEllipse 156 140 356 260 (some ⟨160, 82, 45, 255⟩) none 3 p1
  let p3 := drawRoundedRect 200 280 312 360 8 (some ⟨46, 139, 87, 255⟩) (some ⟨27, 77, 62, 255⟩) 2 p2
  let p4 := drawRoundedRect 210 290 302 350 4 (some ⟨255, 255, 255, 230⟩) none 2 p3
  let p5 : PixelFn := fun x y =>
    if (decide (y = 300) || decide (y = 310) || decide (y = 320) || decide (y = 330)
        || decide (y = 340)) && decide (220 ≤ x) && decide (x ≤ 290) then ⟨51, 51, 51, 255⟩
    else p4 x y
  let f := the_font env
  let bb := f.bbox "$"
  let ox := (256 : Int) - (bb.1 + bb.2.2.1).fdiv 2
  let oy := (305 : Int) - (bb.2.1 + bb.2.2.2).fdiv 2
  { width := 512, height := 512, mode := Mode.rgba,
    pixel := fun x y =>
      pasteBlend (f.mask "$" (x - ox) (y - oy)) ⟨46, 139, 87, 255⟩ (p5 x y) }

end CreateIcons

/-- Application of a list of (path, data) writes to a file store, earlier
entries first, each an unconditional overwrite. -/
def applyWrites (ws : List (String × FileData)) (f : String → Option FileData) :
    String → Option FileData :=
  ws.foldl (fun g p => fun q => if q = p.1 then some p.2 else g q) f

/-- The last write to a given path in a write list, if any. -/
def lastWrite : List (String × FileData) → String → Option FileData
  | [], _ => none
  | p :: ws, q =>
      match lastWrite ws q with
      | some d => some d
      | none => if q = p.1 then some p.2 else none

/-- The (path, data) pairs written by `main()` of `create_high_res_icons.py`,
in write order. -/
def CreateHighResIcons.write_list (env : Env) : List (String × FileData) :=
  (CreateHighResIcons.sizes.map fun n =>
    (osJoin CreateHighResIcons.icons_dir (CreateHighResIcons.size_file_name n),
     FileData.png (CreateHighResIcons.create_high_res_icon_canvas env n))) ++
  [(osJoin CreateHighResIcons.icons_dir "icon.png",
    FileData.png (CreateHighResIcons.create_high_res_icon_canvas env 512)),
   (osJoin CreateHighResIcons.icons_dir "StoreLogo.png",
    FileData.png (CreateHighResIcons.create_high_res_icon_canvas env 512))]

/-- An environment in which both TrueType faces resolve (to the degenerate
concrete font) and `iconutil` succeeds: used to compare runs with and
without the font fallback. -/
def fullFontEnv : Env :=
  ⟨some (fun _ => trivialFont), some (fun _ => trivialFont), trivialFont, IconutilStatus.succeeds⟩

/-- A concrete environment whose `iconutil` binary is missing. -/
def absentEnv : Env := ⟨none, none, trivialFont, IconutilStatus.absent⟩

/-- A concrete world holding a PNG at the source path `create_ico.py`
expects, for exercising the happy path of its iconset regeneration. -/
def srcWorld : World :=
  writeFile CreateIco.source_icon (FileData.png (CreateSquirrelIcon.create_squirrel_icon 1024))
    emptyWorld

@[simp] theorem files_writeFile (p : String) (d : FileData) (w : World) :
    (writeFile p d w).files = fun q => if q = p then some d else w.files q := rfl

@[simp] theorem files_emit (s : String) (w : World) : (emit s w).files = w.files := rfl

@[simp] theorem printed_writeFile (p : String) (d : FileData) (w : World) :
    (writeFile p d w).printed = w.printed := rfl

@[simp] theorem printed_emit (s : String) (w : World) :
    (emit s w).printed = w.printed ++ [s] := rfl

theorem pasteBlend_alpha (m : Nat) (top base : RGBA) (ht : top.a = 255) (hb : base.a = 255) :
    (pasteBlend m top base).a = 255 := by
  have hk : min m 255 ≤ 255 := min_le_right _ _
  have h1 : 255 * min m 255 + 255 * (255 - min m 255) = 65025 := by omega
  simp only [pasteBlend, ht, hb]
  omega

theorem hr_base_pixel_alpha (size : Nat) (x y : Int)
    (h : CreateHighResIcons.in_logo_circle size x y = true) :
    (CreateHighResIcons.base_pixel size x y).a = 255 := by
  simp [CreateHighResIcons.base_pixel, h]

theorem hr_pixel_alpha (env : Env) (size : Nat) (x y : Int)
    (h : CreateHighResIcons.in_logo_circle size x y = true) :
    ((CreateHighResIcons.create_high_res_icon_canvas env size).pixel x y).a = 255 := by
  simp only [CreateHighResIcons.create_high_res_icon_canvas]
  split
  · exact pasteBlend_alpha _ _ _ rfl (hr_base_pixel_alpha size x y h)
  · exact hr_base_pixel_alpha size x y h

theorem simple_base_pixel_alpha (size : Nat) (x y : Int)
    (h : CreateIconsSimple.in_walnut size x y = true) :
    (CreateIconsSimple.base_pixel size x y).a = 255 := by
  simp [CreateIconsSimple.base_pixel, h]

theorem simple_pixel_alpha (env : Env) (size : Nat) (x y : Int)
    (h : CreateIconsSimple.in_walnut size x y = true) :
    ((CreateIconsSimple.create_simple_icon_canvas env size).pixel x y).a = 255 := by
  simp only [CreateIconsSimple.create_simple_icon_canvas]
  exact pasteBlend_alpha _ _ _ rfl (simple_base_pixel_alpha size x y h)

theorem hr_pixel_alpha_ne (env : Env) (size : Nat) (x y : Int)
    (h : CreateHighResIcons.in_logo_circle size x y = true) :
    ((CreateHighResIcons.create_high_res_icon_canvas env size).pixel x y).a ≠ 0 := by
  have := hr_pixel_alpha env size x y h
  omega

theorem simple_pixel_alpha_ne (env : Env) (size : Nat) (x y : Int)
    (h : CreateIconsSimple.in_walnut size x y = true) :
    ((CreateIconsSimple.create_simple_icon_canvas env size).pixel x y).a ≠ 0 := by
  have := simple_pixel_alpha env size x y h
  omega

theorem fdiv_two_margin (a : Int) : 0 ≤ a - 2 * (a.fdiv 2) ∧ a - 2 * (a.fdiv 2) ≤ 1 := by
  rw [Int.fdiv_eq_ediv a (by norm_num)]
  omega

theorem applyWrites_apply (ws : List (String × FileData)) (f : String → Option FileData)
    (q : String) :
    applyWrites ws f q = match lastWrite ws q with
      | some d => some d
      | none => f q := by
  induction ws generalizing f with
  | nil => rfl
  | cons p ws ih =>
      simp only [applyWrites, List.foldl_cons] at *
      rw [ih]
      cases h : lastWrite ws q with
      | some d => simp [lastWrite, h]
      | none => simp only [lastWrite, h]; split <;> rfl

theorem applyWrites_idem (ws : List (String × FileData)) (f : String → Option FileData) :
    applyWrites ws (applyWrites ws f) = applyWrites ws f := by
  funext q
  rw [applyWrites_apply, applyWrites_apply]
  cases h : lastWrite ws q with
  | some d => rfl
  | none => rfl

theorem CreateHighResIcons.main_files (env : Env) (w : World) :
    (CreateHighResIcons.main env w).files =
      applyWrites (CreateHighResIcons.write_list env) w.files := rfl

/-- C1: for every size N in a script's configured size list, the renderer
(`create_high_res_icon` of `create_high_res_icons.py`, `create_simple_icon`
of `create_icons_simple.py`) produces a canvas of exactly N by N pixels
whose center pixel is not fully transparent. -/
theorem render_dims_and_center_visible (env : Env) :
    (∀ n ∈ CreateHighResIcons.sizes,
      (CreateHighResIcons.create_high_res_icon_canvas env n).width = n ∧
      (CreateHighResIcons.create_high_res_icon_canvas env n).height = n ∧
      ((CreateHighResIcons.create_high_res_icon_canvas env n).pixel ((n / 2 : Nat) : Int)
        ((n / 2 : Nat) : Int)).a ≠ 0) ∧
    (∀ p ∈ CreateIconsSimple.iconset_sizes,
      (CreateIconsSimple.create_simple_icon_canvas env p.1).width = p.1 ∧
      (CreateIconsSimple.create_simple_icon_canvas env p.1).height = p.1 ∧
      ((CreateIconsSimple.create_simple_icon_canvas env p.1).pixel ((p.1 / 2 : Nat) : Int)
        ((p.1 / 2 : Nat) : Int)).a ≠ 0) := by
  constructor
  · intro n hn
    fin_cases hn <;>
      exact ⟨rfl, rfl, hr_pixel_alpha_ne env _ _ _ (by decide)⟩
  · intro p hp
    fin_cases hp <;>
      exact ⟨rfl, rfl, simple_pixel_alpha_ne env _ _ _ (by decide)⟩

/-- Witness for the C1 theorem at size 16 in the concrete environment. -/
theorem render_dims_and_center_visible_witness :
    16 ∈ CreateHighResIcons.sizes ∧
    ((CreateHighResIcons.create_high_res_icon_canvas trivialEnv 16).pixel 8 8).a ≠ 0 :=
  ⟨by decide, ((render_dims_and_center_visible trivialEnv).1 16 (by decide)).2.2⟩

/-- C2: each exporter main writes `output_dir/NxN.png` rendered at N for
every N of its size list, plus `icon.png` and `StoreLogo.png` rendered at
512; the starting world is arbitrary, so any existing files at those paths
are overwritten unconditionally. -/
theorem exporter_main_writes_all (env : Env) (w : World) :
    (∀ n ∈ CreateHighResIcons.sizes,
      (CreateHighResIcons.main env w).files
          (osJoin CreateHighResIcons.icons_dir (CreateHighResIcons.size_file_name n)) =
        some (FileData.png (CreateHighResIcons.create_high_res_icon_canvas env n))) ∧
    (CreateHighResIcons.main env w).files (osJoin CreateHighResIcons.icons_dir "icon.png") =
      some (FileData.png (CreateHighResIcons.create_high_res_icon_canvas env 512)) ∧
    (CreateHighResIcons.main env w).files (osJoin CreateHighResIcons.icons_dir "StoreLogo.png") =
      some (FileData.png (CreateHighResIcons.create_high_res_icon_canvas env 512)) ∧
    (∀ n ∈ CreateSquirrelIcon.sizes,
      (CreateSquirrelIcon.main w).files
          (osJoin CreateSquirrelIcon.icons_dir (CreateSquirrelIcon.size_file_name n)) =
        some (FileData.png (CreateSquirrelIcon.create_squirrel_icon n))) ∧
    (CreateSquirrelIcon.main w).files (osJoin CreateSquirrelIcon.icons_dir "icon.png") =
      some (FileData.png (CreateSquirrelIcon.create_squirrel_icon 512)) ∧
    (CreateSquirrelIcon.main w).files (osJoin CreateSquirrelIcon.icons_dir "StoreLogo.png") =
      some (FileData.png (CreateSquirrelIcon.create_squirrel_icon 512)) := by
  refine ⟨?_, rfl, rfl, ?_, rfl, rfl⟩
  · intro n hn
    fin_cases hn <;> rfl
  · intro n hn
    fin_cases hn <;> rfl

/-- Witness for the C2 theorem at size 16 over the empty world. -/
theorem exporter_main_writes_all_witness :
    16 ∈ CreateHighResIcons.sizes ∧
    (CreateHighResIcons.main trivialEnv emptyWorld).files
        (osJoin CreateHighResIcons.icons_dir (CreateHighResIcons.size_file_name 16)) =
      some (FileData.png (CreateHighResIcons.create_high_res_icon_canvas trivialEnv 16)) :=
  ⟨by decide, (exporter_main_writes_all trivialEnv emptyWorld).1 16 (by decide)⟩

/-- C6: rendering is deterministic — the canvas is a function of the size
and the (fixed) style environment alone, with no clock or randomness in
the embedding — and running the exporter twice from any starting world
leaves exactly the same file contents as running it once (byte-identical
outputs, since a PNG file's bytes are determined by the canvas written). -/
theorem render_deterministic_export_idempotent :
    (∀ (env : Env) (n m : Nat), n = m →
      CreateHighResIcons.create_high_res_icon_canvas env n =
        CreateHighResIcons.create_high_res_icon_canvas env m) ∧
    (∀ (env : Env) (w : World),
      (CreateHighResIcons.main env (CreateHighResIcons.main env w)).files =
        (CreateHighResIcons.main env w).files) := by
  constructor
  · intro env n m h
    rw [h]
  · intro env w
    rw [CreateHighResIcons.main_files, CreateHighResIcons.main_files, applyWrites_idem]

/-- Witness for the C6 theorem: determinism applied at size 16. -/
theorem render_deterministic_export_idempotent_witness :
    CreateHighResIcons.create_high_res_icon_canvas trivialEnv 16 =
      CreateHighResIcons.create_high_res_icon_canvas trivialEnv 16 :=
  render_deterministic_export_idempotent.1 trivialEnv 16 16 rfl

/-- C9: in both renderers the glyph is positioned from the measured text
bounding box — the draw/paste origin is exactly
`((size - text_width) // 2, (size - text_height) // 2)` — and consequently
the placed text box is centered on the canvas at every size: the right
margin exceeds the left margin by at most one pixel, and likewise
vertically (the floor-division remainder), for any font metrics. -/
theorem text_positioned_by_measured_bbox (env : Env) (size : Nat) :
    (CreateHighResIcons.text_pos env size =
      (((size : Int) - (CreateHighResIcons.text_dims env size).1).fdiv 2,
       ((size : Int) - (CreateHighResIcons.text_dims env size).2).fdiv 2)) ∧
    (0 ≤ ((size : Int) - (CreateHighResIcons.text_dims env size).1) -
        2 * (CreateHighResIcons.text_pos env size).1 ∧
     ((size : Int) - (CreateHighResIcons.text_dims env size).1) -
        2 * (CreateHighResIcons.text_pos env size).1 ≤ 1) ∧
    (0 ≤ ((size : Int) - (CreateHighResIcons.text_dims env size).2) -
        2 * (CreateHighResIcons.text_pos env size).2 ∧
     ((size : Int) - (CreateHighResIcons.text_dims env size).2) -
        2 * (CreateHighResIcons.text_pos env size).2 ≤ 1) ∧
    (CreateIconsSimple.text_pos env size =
      (((size : Int) - (CreateIconsSimple.text_dims env size).1).fdiv 2,
       ((size : Int) - (CreateIconsSimple.text_dims env size).2).fdiv 2)) ∧
    (0 ≤ ((size : Int) - (CreateIconsSimple.text_dims env size).1) -
        2 * (CreateIconsSimple.text_pos env size).1 ∧
     ((size : Int) - (CreateIconsSimple.text_dims env size).1) -
        2 * (CreateIconsSimple.text_pos env size).1 ≤ 1) ∧
    (0 ≤ ((size : Int) - (CreateIconsSimple.text_dims env size).2) -
        2 * (CreateIconsSimple.text_pos env size).2 ∧
     ((size : Int) - (CreateIconsSimple.text_dims env size).2) -
        2 * (CreateIconsSimple.text_pos env size).2 ≤ 1) :=
  ⟨rfl, fdiv_two_margin _, fdiv_two_margin _, rfl, fdiv_two_margin _, fdiv_two_margin _⟩

/-- C4 counterexample: with the TrueType face unavailable the fallback is
taken, yet the run prints exactly the same single `Created ...` line as a
run in which the face resolves — no font diagnostic is logged anywhere. -/
theorem font_fallback_no_diagnostic :
    (CreateIconsSimple.create_simple_icon trivialEnv 32 "p.png" emptyWorld).printed =
      ["Created p.png (32x32)"] ∧
    (CreateIconsSimple.create_simple_icon fullFontEnv 32 "p.png" emptyWorld).printed =
      ["Created p.png (32x32)"] := ⟨rfl, rfl⟩

/-- C4 amended: when the preferred TrueType face is unavailable, both
renderers fall back to the built-in default glyph source without raising,
and the degradation is entirely silent — the run prints only its usual
`Created ...` line, no diagnostic. -/
theorem font_fallback_silent (env : Env) (size : Nat) (path : String) (w : World)
    (h1 : env.arialbd = none) (h2 : env.systemArial = none) :
    CreateHighResIcons.the_font env size = env.defaultFont ∧
    CreateIconsSimple.the_font env size = env.defaultFont ∧
    (CreateHighResIcons.create_high_res_icon env size path w).printed =
      w.printed ++ ["Created " ++ path ++ " (" ++ toString size ++ "x" ++ toString size ++ ")"] ∧
    (CreateIconsSimple.create_simple_icon env size path w).printed =
      w.printed ++ ["Created " ++ path ++ " (" ++ toString size ++ "x" ++ toString size ++ ")"] := by
  refine ⟨?_, ?_, rfl, rfl⟩
  · simp [CreateHighResIcons.the_font, h1]
  · simp [CreateIconsSimple.the_font, h2]

/-- Witness for the C4 amended theorem in the concrete fontless environment. -/
theorem font_fallback_silent_witness :
    trivialEnv.arialbd = none ∧ trivialEnv.systemArial = none ∧
    CreateHighResIcons.the_font trivialEnv 32 = trivialEnv.defaultFont :=
  ⟨rfl, rfl, (font_fallback_silent trivialEnv 32 "p.png" emptyWorld rfl rfl).1⟩

/-- C7 counterexample: a renderer call is not free of side effects — it
writes its output file and prints a line. -/
theorem renderer_call_has_effects :
    (CreateHighResIcons.create_high_res_icon trivialEnv 16 "out.png" emptyWorld).files "out.png"
      ≠ none ∧
    (CreateHighResIcons.create_high_res_icon trivialEnv 16 "out.png" emptyWorld).printed ≠ [] := by
  constructor
  · intro h
    simp [CreateHighResIcons.create_high_res_icon] at h
  · intro h
    simp [CreateHighResIcons.create_high_res_icon, emptyWorld] at h

/-- C7 amended: a renderer call's side effects are exactly one file write
(at its `output_path` argument) and one printed line; every other file is
left unchanged. -/
theorem renderer_call_frame (env : Env) (size : Nat) (path q : String) (w : World)
    (h : q ≠ path) :
    (CreateHighResIcons.create_high_res_icon env size path w).files q = w.files q ∧
    (CreateHighResIcons.create_high_res_icon env size path w).printed =
      w.printed ++ ["Created " ++ path ++ " (" ++ toString size ++ "x" ++ toString size ++ ")"] ∧
    (CreateIconsSimple.create_simple_icon env size path w).files q = w.files q ∧
    (CreateIconsSimple.create_simple_icon env size path w).printed =
      w.printed ++ ["Created " ++ path ++ " (" ++ toString size ++ "x" ++ toString size ++ ")"] := by
  refine ⟨?_, rfl, ?_, rfl⟩ <;>
    simp [CreateHighResIcons.create_high_res_icon, CreateIconsSimple.create_simple_icon, h]

/-- Witness for the C7 amended theorem at concrete distinct paths. -/
theorem renderer_call_frame_witness :
    ("other.png" : String) ≠ "out.png" ∧
    (CreateHighResIcons.create_high_res_icon trivialEnv 16 "out.png" emptyWorld).files "other.png" =
      emptyWorld.files "other.png" :=
  ⟨by decide, (renderer_call_frame trivialEnv 16 "out.png" "other.png" emptyWorld (by decide)).1⟩

/-- C8 counterexample: the canvas built by `create_ico()` in
`create_icons_simple.py` is an `RGB` image — it has no alpha channel. -/
theorem ico_canvas_lacks_alpha :
    (CreateIconsSimple.create_ico_canvas trivialEnv).hasAlpha = false := rfl

/-- C8 amended: every renderer canvas is square; the PNG renderers draw on
`RGBA` canvases with an alpha channel, while the `create_ico()` canvas is
a 256 by 256 `RGB` image without one. -/
theorem canvases_square_with_modes (env : Env) (n : Nat) :
    (CreateHighResIcons.create_high_res_icon_canvas env n).width = n ∧
    (CreateHighResIcons.create_high_res_icon_canvas env n).height = n ∧
    (CreateHighResIcons.create_high_res_icon_canvas env n).mode = Mode.rgba ∧
    (CreateIconsSimple.create_simple_icon_canvas env n).width = n ∧
    (CreateIconsSimple.create_simple_icon_canvas env n).height = n ∧
    (CreateIconsSimple.create_simple_icon_canvas env n).mode = Mode.rgba ∧
    (CreateSquirrelIcon.create_squirrel_icon n).width = n ∧
    (CreateSquirrelIcon.create_squirrel_icon n).height = n ∧
    (CreateSquirrelIcon.create_squirrel_icon n).mode = Mode.rgba ∧
    (CreateIcons.create_simple_icon env).width = 512 ∧
    (CreateIcons.create_simple_icon env).height = 512 ∧
    (CreateIcons.create_simple_icon env).mode = Mode.rgba ∧
    (CreateIconsSimple.create_ico_canvas env).width = 256 ∧
    (CreateIconsSimple.create_ico_canvas env).height = 256 ∧
    (CreateIconsSimple.create_ico_canvas env).mode = Mode.rgb :=
  ⟨rfl, rfl, rfl, rfl, rfl, rfl, rfl, rfl, rfl, rfl, rfl, rfl, rfl, rfl, rfl⟩

/-- C5: when `iconutil` is absent or exits non-zero, `create_icns` (in both
`create_icons_simple.py` and `create_ico.py`) raises nothing: it prints one
of the two handler messages, writes nothing, and every iconset PNG written
before the packaging step is still present with its rendered content. -/
theorem icns_failure_nonfatal (env : Env) (w : World)
    (h : env.iconutil = IconutilStatus.absent ∨ env.iconutil = IconutilStatus.fails) :
    (∃ m, (CreateIconsSimple.create_icns env w).printed = w.printed ++ [m] ∧
      (m = "iconutil not found. Make sure you're on macOS." ∨
       m = "Error creating .icns file: CalledProcessError")) ∧
    (CreateIconsSimple.create_icns env w).files = w.files ∧
    (CreateIco.create_icns env w).files = w.files ∧
    (∀ p ∈ CreateIconsSimple.iconset_sizes,
      (CreateIconsSimple.create_icns env (CreateIconsSimple.create_iconset env w)).files
          (osJoin CreateIconsSimple.iconset_dir p.2) =
        some (FileData.png (CreateIconsSimple.create_simple_icon_canvas env p.1))) := by
  have key : ∀ p ∈ CreateIconsSimple.iconset_sizes,
      (CreateIconsSimple.create_iconset env w).files (osJoin CreateIconsSimple.iconset_dir p.2) =
        some (FileData.png (CreateIconsSimple.create_simple_icon_canvas env p.1)) := by
    intro p hp
    fin_cases hp <;> rfl
  rcases h with h | h
  · have e1 : CreateIconsSimple.create_icns env w =
        emit "iconutil not found. Make sure you're on macOS." w := by
      simp [CreateIconsSimple.create_icns, h]
    have e2 : CreateIco.create_icns env w =
        emit "iconutil not found. Make sure you're on macOS." w := by
      simp [CreateIco.create_icns, h]
    have e3 : CreateIconsSimple.create_icns env (CreateIconsSimple.create_iconset env w) =
        emit "iconutil not found. Make sure you're on macOS."
          (CreateIconsSimple.create_iconset env w) := by
      simp [CreateIconsSimple.create_icns, h]
    refine ⟨⟨_, by rw [e1]; rfl, Or.inl rfl⟩, by rw [e1]; rfl, by rw [e2]; rfl, ?_⟩
    intro p hp
    rw [e3]
    exact key p hp
  · have e1 : CreateIconsSimple.create_icns env w =
        emit "Error creating .icns file: CalledProcessError" w := by
      simp [CreateIconsSimple.create_icns, h]
    have e2 : CreateIco.create_icns env w =
        emit "Error creating .icns file: CalledProcessError" w := by
      simp [CreateIco.create_icns, h]
    have e3 : CreateIconsSimple.create_icns env (CreateIconsSimple.create_iconset env w) =
        emit "Error creating .icns file: CalledProcessError"
          (CreateIconsSimple.create_iconset env w) := by
      simp [CreateIconsSimple.create_icns, h]
    refine ⟨⟨_, by rw [e1]; rfl, Or.inr rfl⟩, by rw [e1]; rfl, by rw [e2]; rfl, ?_⟩
    intro p hp
    rw [e3]
    exact key p hp

/-- Witness for the C5 theorem in the concrete iconutil-less environment. -/
theorem icns_failure_nonfatal_witness :
    (absentEnv.iconutil = IconutilStatus.absent ∨ absentEnv.iconutil = IconutilStatus.fails) ∧
    (CreateIconsSimple.create_icns absentEnv emptyWorld).files = emptyWorld.files :=
  ⟨Or.inl rfl, (icns_failure_nonfatal absentEnv emptyWorld (Or.inl rfl)).2.1⟩

/-- C3 counterexample: with the expected input PNG absent, the entry point
of `create_ico.py` propagates `FileNotFoundError` — the failure is not
reduced to a printed diagnostic. -/
theorem create_ico_entry_raises :
    CreateIco.main trivialEnv emptyWorld =
      Except.error (PyErr.fileNotFoundError "src-tauri/icons/icon_512x512@2x.png") := rfl

/-- C3 amended: the missing-source-asset path is handled non-fatally in
`create_high_res_squirrel_icons.py`, whose entry point guards the input
PNG with an existence check and reduces its absence to a printed message —
that entry point never raises, for any starting world. -/
theorem squirrel_resize_entry_never_raises (w : World) :
    ∃ w2, CreateHighResSquirrelIcons.create_high_res_icons w = Except.ok w2 := by
  cases h : w.files CreateHighResSquirrelIcons.source_path with
  | none =>
      simp only [CreateHighResSquirrelIcons.create_high_res_icons, h, Option.isSome_none]
      exact ⟨_, rfl⟩
  | some d =>
      simp only [CreateHighResSquirrelIcons.create_high_res_icons, imageOpen, h,
        Option.isSome_some]
      exact ⟨_, rfl⟩

/-- C10: both scripts carry the same fixed ten-entry iconset list; every
entry named `icon_MxM.png` carries pixel size exactly M and every entry
named `icon_MxM@2x.png` carries pixel size exactly 2*M; and the file
written for each entry is rendered (or resized) at exactly that pixel
size. -/
theorem iconset_entry_sizes_match_names (env : Env) (w : World) (c : Canvas) :
    CreateIco.sizes = CreateIconsSimple.iconset_sizes ∧
    (∀ p ∈ CreateIconsSimple.iconset_sizes,
      ((∃ m, p.2 = "icon_" ++ toString m ++ "x" ++ toString m ++ ".png" ∧ p.1 = m) ∨
       (∃ m, p.2 = "icon_" ++ toString m ++ "x" ++ toString m ++ "@2x.png" ∧ p.1 = 2 * m)) ∧
      (CreateIconsSimple.create_iconset env w).files
          (osJoin CreateIconsSimple.iconset_dir p.2) =
        some (FileData.png (CreateIconsSimple.create_simple_icon_canvas env p.1)) ∧
      (CreateIconsSimple.create_simple_icon_canvas env p.1).width = p.1 ∧
      (CreateIconsSimple.create_simple_icon_canvas env p.1).height = p.1) ∧
    (w.files CreateIco.source_icon = some (FileData.png c) →
      ∃ w2, CreateIco.create_iconset_from_existing w = Except.ok w2 ∧
        ∀ p ∈ CreateIco.sizes,
          w2.files (osJoin CreateIco.iconset_dir p.2) =
            some (FileData.png (imgResize c p.1 p.1)) ∧
          (imgResize c p.1 p.1).width = p.1 ∧ (imgResize c p.1 p.1).height = p.1) := by
  refine ⟨rfl, ?_, ?_⟩
  · intro p hp
    fin_cases hp
    · exact ⟨Or.inl ⟨16, by decide, rfl⟩, rfl, rfl, rfl⟩
    · exact ⟨Or.inr ⟨16, by decide, rfl⟩, rfl, rfl, rfl⟩
    · exact ⟨Or.inl ⟨32, by decide, rfl⟩, rfl, rfl, rfl⟩
    · exact ⟨Or.inr ⟨32, by decide, rfl⟩, rfl, rfl, rfl⟩
    · exact ⟨Or.inl ⟨128, by decide, rfl⟩, rfl, rfl, rfl⟩
    · exact ⟨Or.inr ⟨128, by decide, rfl⟩, rfl, rfl, rfl⟩
    · exact ⟨Or.inl ⟨256, by decide, rfl⟩, rfl, rfl, rfl⟩
    · exact ⟨Or.inr ⟨256, by decide, rfl⟩, rfl, rfl, rfl⟩
    · exact ⟨Or.inl ⟨512, by decide, rfl⟩, rfl, rfl, rfl⟩
    · exact ⟨Or.inr ⟨512, by decide, rfl⟩, rfl, rfl, rfl⟩
  · intro hsrc
    simp only [CreateIco.create_iconset_from_existing, imageOpen, hsrc, canvas_of]
    refine ⟨_, rfl, ?_⟩
    intro p hp
    fin_cases hp <;> exact ⟨rfl, rfl, rfl⟩

/-- Witness for the C10 theorem: the first iconset entry of the simple
renderer, and the happy path of the regeneration script over a world that
holds the source PNG. -/
theorem iconset_entry_sizes_match_names_witness :
    ((16, "icon_16x16.png") ∈ CreateIconsSimple.iconset_sizes) ∧
    srcWorld.files CreateIco.source_icon =
      some (FileData.png (CreateSquirrelIcon.create_squirrel_icon 1024)) ∧
    (CreateIconsSimple.create_iconset trivialEnv emptyWorld).files
        (osJoin CreateIconsSimple.iconset_dir "icon_16x16.png") =
      some (FileData.png (CreateIconsSimple.create_simple_icon_canvas trivialEnv 16)) ∧
    (∃ w2, CreateIco.create_iconset_from_existing srcWorld = Except.ok w2) := by
  refine ⟨by decide, rfl, ?_, ?_⟩
  · exact (((iconset_entry_sizes_match_names trivialEnv emptyWorld
      (CreateSquirrelIcon.create_squirrel_icon 1024)).2.1 (16, "icon_16x16.png")
        (by decide)).2.1)
  · obtain ⟨w2, hw, -⟩ := (iconset_entry_sizes_match_names trivialEnv srcWorld
      (CreateSquirrelIcon.create_squirrel_icon 1024)).2.2 rfl
    exact ⟨w2, hw⟩
